import Mathlib

/-!
# Verification of the sponsored-transaction demo (Sui / Shinami gas station)

Shallow embedding of the repository's sponsored-operation pipeline:

* `src/app/api/buildSponsoredTx/route.ts` — builds a gasless move-call
  transaction (`math::add` or `math::hello_world`), sponsors it via the gas
  station, and returns the sponsored bytes + sponsor signature.
* the transfer build route (`buildTransferTx`) — queries the sender's SUI
  coins, builds a gasless split-and-transfer transaction from the first coin,
  sponsors it, and returns the sponsored bytes + sponsor signature.
* `src/app/api/executeSponsoredTx/route.ts` — submits (txBytes,
  [senderSignature, sponsorSignature]) to the ledger.
* `src/app/page.tsx` (`handleFrontendSubmit`, `handleBackendSubmit`) and the
  `TransferForm` component (`handleTransfer`) — the frontend flows that sign
  with the connected wallet and submit.

External collaborators (gas station `sponsorTransaction`, ledger
`executeTransactionBlock`, wallet `signTransaction`, chain reads `getCoins`)
are passed in as explicit function parameters, so each route/flow is a pure
function of its request body and its collaborators' behaviour, and we can
quantify over every possible sponsor response, ledger result and wallet.
-/

namespace GasStationDemo

/-- Byte encoding of a string (one byte list entry per character code point);
used everywhere a serialized form travels as a string. -/
def strBytes (s : String) : List Nat := s.data.map Char.toNat

/-- Little-endian 8-byte encoding of a `u64` value, as in BCS serialization
of `txb.pure.u64` arguments. -/
def u64LE (n : Nat) : List Nat := (List.range 8).map (fun i => n / 256 ^ i % 256)

/-- A SUI coin as returned by `suiClient.getCoins` (object id and balance). -/
structure Coin where
  coinObjectId : String
  balance : Nat
deriving Repr, DecidableEq

/-- The ledger state visible through the read queries the routes perform:
`coins owner` is the list `suiClient.getCoins({owner, coinType: SUI}).data`. -/
structure ChainState where
  coins : String → List Coin

/-- The transaction instructions the two build routes construct inside
`buildGaslessTransaction`'s builder callback:
`math::add(num1, num2)`, `math::hello_world()`, or
`splitCoins(senderCoin, [amount])` followed by `transferObjects(recipient)`. -/
inductive TxInstr where
  | moveCallAdd (packageId : String) (n1 n2 : Nat)
  | moveCallHelloWorld (packageId : String)
  | transferSui (sourceCoinId : String) (amountMist : Nat) (recipient : String)
deriving Repr, DecidableEq

/-- Serialization of the transaction kind (the instruction sequence):
a tag byte for the command shape, then target / arguments in order. -/
def encodeInstr : TxInstr → List Nat
  | .moveCallAdd pkg a b =>
      0 :: strBytes (pkg ++ "::math::add") ++ u64LE a ++ u64LE b
  | .moveCallHelloWorld pkg =>
      1 :: strBytes (pkg ++ "::math::hello_world")
  | .transferSui coinId amt recipient =>
      2 :: strBytes coinId ++ u64LE amt ++ strBytes recipient

/-- A gasless transaction as produced by Shinami's `buildGaslessTransaction`
helper: the serialized transaction kind, the sender (set to the default empty
value by the helper and assigned afterwards by the routes via
`gaslessTx.sender = sender`), and an optional gas budget, which the routes
never set (the gas station auto-budgets). -/
structure GaslessTx where
  txKindBytes : List Nat
  sender : String
  gasBudget : Option Nat
deriving Repr, DecidableEq

/-- `buildGaslessTransaction(builder, { sui })`. The Sui client argument is
consulted only to resolve unresolved object inputs; every instruction the
builds in this repository produce uses fully specified inputs (pure `u64`
arguments, or a concrete coin object id already fetched via `getCoins`), so
the produced transaction kind is a function of the instruction alone; the
chain-state parameter records that the call takes it and does not use it. -/
def buildGaslessTransaction (instr : TxInstr) (_st : ChainState) : GaslessTx :=
  { txKindBytes := encodeInstr instr, sender := "", gasBudget := none }

/-- The serialized unbound payload: transaction kind plus declared sender,
with the fee fields still unset. -/
def unboundPayloadBytes (tx : GaslessTx) : List Nat :=
  tx.txKindBytes ++ strBytes tx.sender

/-- The fee-bound transaction underlying the `txBytes` the gas station
returns: the transaction kind and sender, with the gas fields (budget and
payment coin) now filled in by the sponsor. -/
structure FeeBoundTx where
  txKindBytes : List Nat
  sender : String
  gasBudget : Nat
  gasPayment : String
deriving Repr, DecidableEq

/-- The serialized fee-bound payload (what `sponsoredResponse.txBytes`
encodes): kind, sender, then the gas fields. -/
def feeBoundTxBytes (tx : FeeBoundTx) : List Nat :=
  tx.txKindBytes ++ strBytes tx.sender ++ u64LE tx.gasBudget ++ strBytes tx.gasPayment

/-- The gas station's `sponsorTransaction` response: the fee-bound
transaction (whose serialization is the returned `txBytes`), the sponsor
`signature`, and the `txDigest`. -/
structure SponsorResponse where
  tx : FeeBoundTx
  signature : String
  txDigest : String
deriving Repr, DecidableEq

/-- JavaScript falsiness of an optional string field of a parsed JSON body:
`!x` holds when the field is absent (or null) or the empty string. -/
def isFalsyStr : Option String → Bool
  | none => true
  | some s => s == ""

/-- JavaScript falsiness of an optional byte-string field (`txBytes` travels
as a base64 string; the empty string encodes the empty byte list). -/
def isFalsyBytes : Option (List Nat) → Bool
  | none => true
  | some b => b.isEmpty

/-- `!amount || amount <= 0` for the transfer route's amount field. -/
def amountInvalid : Option Int → Bool
  | none => true
  | some a => decide (a ≤ 0)

/-- The builder callback of `/api/buildSponsoredTx`: a `math::add(num1, num2)`
move call when `num1 !== undefined && num2 !== undefined`, else a
zero-argument `math::hello_world` move call. -/
def mathInstr (packageId : String) (num1 num2 : Option Nat) : TxInstr :=
  match num1, num2 with
  | some a, some b => TxInstr.moveCallAdd packageId a b
  | _, _ => TxInstr.moveCallHelloWorld packageId

/-- Request body of `/api/buildSponsoredTx` (`BuildSponsoredTxRequest` in
`lib/types.ts`): sender plus the optional math arguments; `transactionData`
is the type's generic extra-data slot, which the route never reads. -/
structure BuildSponsoredTxRequest where
  sender : Option String
  num1 : Option Nat
  num2 : Option Nat
  transactionData : Option String
deriving Repr, DecidableEq

/-- The environment the build route reads: `NEXT_PUBLIC_MOVE_PACKAGE_ID`. -/
structure Env where
  packageId : Option String
deriving Repr, DecidableEq

/-- Observable outcome of one invocation of a build route: HTTP status,
error message (if any), the response fields on success, plus a trace of the
interesting effects — `sponsorRequest` is the gasless transaction handed to
`sponsorTransaction` (`none` when no sponsorship request was made at all)
and `builtInstr` is the instruction the builder callback constructed. -/
structure BuildOutcome where
  status : Nat
  error : Option String
  txBytes : Option (List Nat)
  sponsorSignature : Option String
  digest : Option String
  sponsorRequest : Option GaslessTx
  builtInstr : Option TxInstr
deriving Repr, DecidableEq

/-- An outcome with no effects, for the early validation-error returns. -/
def buildError (status : Nat) (msg : String) : BuildOutcome :=
  { status := status, error := some msg, txBytes := none, sponsorSignature := none,
    digest := none, sponsorRequest := none, builtInstr := none }

/-- `POST /api/buildSponsoredTx` (`src/app/api/buildSponsoredTx/route.ts`).
Validates the sender and the package id, builds the gasless transaction
(`math::add(num1, num2)` when both numbers are present, else
`math::hello_world()`), sets the sender, sponsors it, and returns the
sponsor's `txBytes`, `signature` and `txDigest` unchanged. A rejection by
the sponsor is caught by the route's try/catch and surfaces as a 500. -/
def buildSponsoredTxPOST (body : BuildSponsoredTxRequest) (env : Env)
    (st : ChainState) (sponsorTransaction : GaslessTx → Except String SponsorResponse) :
    BuildOutcome :=
  if isFalsyStr body.sender then
    buildError 400 "Sender address is required"
  else if isFalsyStr env.packageId then
    buildError 500 "Move package ID not configured"
  else
    let sender := body.sender.getD ""
    let packageId := env.packageId.getD ""
    let instr := mathInstr packageId body.num1 body.num2
    let gaslessTx := { buildGaslessTransaction instr st with sender := sender }
    match sponsorTransaction gaslessTx with
    | .error _ =>
      { status := 500, error := some "Failed to build or sponsor transaction",
        txBytes := none, sponsorSignature := none, digest := none,
        sponsorRequest := some gaslessTx, builtInstr := some instr }
    | .ok r =>
      { status := 200, error := none, txBytes := some (feeBoundTxBytes r.tx),
        sponsorSignature := some r.signature, digest := some r.txDigest,
        sponsorRequest := some gaslessTx, builtInstr := some instr }

/-- Request body of the transfer build route (`BuildTransferTxRequest`). -/
structure BuildTransferTxRequest where
  sender : Option String
  recipient : Option String
  amount : Option Int
deriving Repr, DecidableEq

/-- `POST` of the transfer build route (the `buildTransferTx` API route).
Validates sender, recipient and amount, fetches the sender's SUI coins,
fails with a 400 when the list is empty, otherwise takes the FIRST coin,
builds a gasless split-and-transfer of `amount` from it, sponsors, and
returns the sponsor's response unchanged. -/
def buildTransferTxPOST (body : BuildTransferTxRequest) (st : ChainState)
    (sponsorTransaction : GaslessTx → Except String SponsorResponse) :
    BuildOutcome :=
  if isFalsyStr body.sender then
    buildError 400 "Sender address is required"
  else if isFalsyStr body.recipient then
    buildError 400 "Recipient address is required"
  else if amountInvalid body.amount then
    buildError 400 "Amount must be greater than 0"
  else
    let sender := body.sender.getD ""
    match st.coins sender with
    | [] => buildError 400 "Sender has no SUI coins to transfer"
    | senderCoin :: _ =>
      let amount := (body.amount.getD 0).toNat
      let instr := TxInstr.transferSui senderCoin.coinObjectId amount (body.recipient.getD "")
      let gaslessTx := { buildGaslessTransaction instr st with sender := sender }
      match sponsorTransaction gaslessTx with
      | .error _ =>
        { status := 500, error := some "Failed to build or sponsor transfer transaction",
          txBytes := none, sponsorSignature := none, digest := none,
          sponsorRequest := some gaslessTx, builtInstr := some instr }
      | .ok r =>
        { status := 200, error := none, txBytes := some (feeBoundTxBytes r.tx),
          sponsorSignature := some r.signature, digest := some r.txDigest,
          sponsorRequest := some gaslessTx, builtInstr := some instr }

/-- Request body of `/api/executeSponsoredTx` (`ExecuteSponsoredTxRequest`). -/
structure ExecuteSponsoredTxRequest where
  txBytes : Option (List Nat)
  sponsorSignature : Option String
  senderSignature : Option String
deriving Repr, DecidableEq

/-- One call to `executeTransactionBlock`: the payload bytes and the
signature array, in the exact order passed. -/
structure LedgerCall where
  transactionBlock : List Nat
  signature : List String
deriving Repr, DecidableEq

/-- Observable outcome of the execute route: HTTP status, error message,
returned digest, and the ledger call that was issued (`none` when the route
returned before submitting anything). -/
structure ExecuteOutcome where
  status : Nat
  error : Option String
  digest : Option String
  ledgerCall : Option LedgerCall
deriving Repr, DecidableEq

/-- `POST /api/executeSponsoredTx` (`src/app/api/executeSponsoredTx/route.ts`).
Requires all three fields to be present and non-empty (JS falsiness check),
then calls `executeTransactionBlock` with the received bytes and the
signature array `[senderSignature, sponsorSignature]`. A ledger rejection is
caught by the route's try/catch and surfaces as a 500. -/
def executeSponsoredTxPOST (body : ExecuteSponsoredTxRequest)
    (executeTransactionBlock : List Nat → List String → Except String String) :
    ExecuteOutcome :=
  if isFalsyBytes body.txBytes || isFalsyStr body.sponsorSignature
      || isFalsyStr body.senderSignature then
    { status := 400,
      error := some "Transaction bytes, sponsor signature, and sender signature are all required",
      digest := none, ledgerCall := none }
  else
    let txBytes := body.txBytes.getD []
    let senderSignature := body.senderSignature.getD ""
    let sponsorSignature := body.sponsorSignature.getD ""
    match executeTransactionBlock txBytes [senderSignature, sponsorSignature] with
    | .error _ =>
      { status := 500, error := some "Failed to execute transaction", digest := none,
        ledgerCall := some { transactionBlock := txBytes,
                             signature := [senderSignature, sponsorSignature] } }
    | .ok d =>
      { status := 200, error := none, digest := some d,
        ledgerCall := some { transactionBlock := txBytes,
                             signature := [senderSignature, sponsorSignature] } }

/-- The build response as the frontend receives it (`BuildSponsoredTxResponse`
in `lib/types.ts`). -/
structure BuildSponsoredTxResponse where
  txBytes : List Nat
  sponsorSignature : String
  digest : String
deriving Repr, DecidableEq

/-- Trace of one frontend flow run: every payload handed to the wallet's
`signTransaction` (in call order), the direct `executeTransactionBlock` call
issued from the frontend (if any), the body sent to `/api/executeSponsoredTx`
(if any), and the surfaced error (if any). -/
structure FlowTrace where
  signedPayloads : List (List Nat)
  ledgerCall : Option LedgerCall
  executeRequest : Option ExecuteSponsoredTxRequest
  error : Option String
deriving Repr, DecidableEq

/-- `handleFrontendSubmit` in `src/app/page.tsx` (Flow 1), from the point the
`/api/buildSponsoredTx` fetch has resolved (`buildResult`): on a failed
build, surface the error; on success, sign `sponsoredTx.txBytes` with the
wallet once and call `executeTransactionBlock` with those same bytes and
`[senderSignature, sponsoredTx.sponsorSignature]`. -/
def handleFrontendSubmit (buildResult : Except String BuildSponsoredTxResponse)
    (signTransaction : List Nat → String) : FlowTrace :=
  match buildResult with
  | .error e =>
    { signedPayloads := [], ledgerCall := none, executeRequest := none, error := some e }
  | .ok sponsoredTx =>
    let senderSignature := signTransaction sponsoredTx.txBytes
    { signedPayloads := [sponsoredTx.txBytes],
      ledgerCall := some { transactionBlock := sponsoredTx.txBytes,
                           signature := [senderSignature, sponsoredTx.sponsorSignature] },
      executeRequest := none, error := none }

/-- `handleBackendSubmit` in `src/app/page.tsx` (Flow 2), from the point the
`/api/buildSponsoredTx` fetch has resolved: on success, sign
`sponsoredTx.txBytes` with the wallet once and POST
`{txBytes, sponsorSignature, senderSignature}` to `/api/executeSponsoredTx`. -/
def handleBackendSubmit (buildResult : Except String BuildSponsoredTxResponse)
    (signTransaction : List Nat → String) : FlowTrace :=
  match buildResult with
  | .error e =>
    { signedPayloads := [], ledgerCall := none, executeRequest := none, error := some e }
  | .ok sponsoredTx =>
    let senderSignature := signTransaction sponsoredTx.txBytes
    { signedPayloads := [sponsoredTx.txBytes],
      ledgerCall := none,
      executeRequest := some { txBytes := some sponsoredTx.txBytes,
                               sponsorSignature := some sponsoredTx.sponsorSignature,
                               senderSignature := some senderSignature },
      error := none }

/-- `handleTransfer` in the `TransferForm` component. `amountInMist` is
`Math.floor(parseFloat(amount) * 1e9)` when the entered amount parsed to a
positive number, `none` when the `isNaN(amountNum) || amountNum <= 0` guard
fired. The `buildTransferTx` fetch result is `buildResult`; on success the
flow signs `sponsoredTx.txBytes` once and calls `executeTransactionBlock`
with those bytes and `[senderSignature, sponsoredTx.sponsorSignature]`. -/
def handleTransfer (recipient : String) (amountInMist : Option Nat)
    (buildResult : Except String BuildSponsoredTxResponse)
    (signTransaction : List Nat → String) : FlowTrace :=
  if recipient == "" then
    { signedPayloads := [], ledgerCall := none, executeRequest := none,
      error := some "Please enter a recipient address" }
  else
    match amountInMist with
    | none =>
      { signedPayloads := [], ledgerCall := none, executeRequest := none,
        error := some "Please enter a valid amount" }
    | some _ =>
      match buildResult with
      | .error e =>
        { signedPayloads := [], ledgerCall := none, executeRequest := none, error := some e }
      | .ok sponsoredTx =>
        let senderSignature := signTransaction sponsoredTx.txBytes
        { signedPayloads := [sponsoredTx.txBytes],
          ledgerCall := some { transactionBlock := sponsoredTx.txBytes,
                               signature := [senderSignature, sponsoredTx.sponsorSignature] },
          executeRequest := none, error := none }

/-! ## Helper lemmas -/

theorem isFalsyStr_some_false {s : String} (h : s ≠ "") : isFalsyStr (some s) = false := by
  simpa [isFalsyStr] using h

theorem isFalsyBytes_some_false {b : List Nat} (h : b ≠ []) : isFalsyBytes (some b) = false := by
  simpa [isFalsyBytes] using h

theorem executeSponsoredTxPOST_ledgerCall (body : ExecuteSponsoredTxRequest)
    (ledger : List Nat → List String → Except String String)
    (h1 : isFalsyBytes body.txBytes = false) (h2 : isFalsyStr body.sponsorSignature = false)
    (h3 : isFalsyStr body.senderSignature = false) :
    (executeSponsoredTxPOST body ledger).ledgerCall =
      some { transactionBlock := body.txBytes.getD [],
             signature := [body.senderSignature.getD "", body.sponsorSignature.getD ""] } := by
  unfold executeSponsoredTxPOST
  rw [h1, h2, h3]
  simp only [Bool.or_self, Bool.false_or, if_false]
  rcases ledger (body.txBytes.getD []) [body.senderSignature.getD "", body.sponsorSignature.getD ""]
    with e | d <;> simp

theorem buildSponsoredTxPOST_ok_eq (body : BuildSponsoredTxRequest) (env : Env)
    (st : ChainState) (sp : GaslessTx → Except String SponsorResponse)
    (s pkg : String) (r : SponsorResponse)
    (hs : body.sender = some s) (hs' : s ≠ "")
    (hp : env.packageId = some pkg) (hp' : pkg ≠ "")
    (hsp : ∀ tx, sp tx = Except.ok r) :
    buildSponsoredTxPOST body env st sp =
      { status := 200, error := none, txBytes := some (feeBoundTxBytes r.tx),
        sponsorSignature := some r.signature, digest := some r.txDigest,
        sponsorRequest := some { txKindBytes := encodeInstr (mathInstr pkg body.num1 body.num2),
                                 sender := s, gasBudget := none },
        builtInstr := some (mathInstr pkg body.num1 body.num2) } := by
  unfold buildSponsoredTxPOST
  rw [hs, hp, isFalsyStr_some_false hs', isFalsyStr_some_false hp']
  simp only [Bool.false_eq_true, if_false, Option.getD_some]
  rw [hsp]
  rfl

theorem buildSponsoredTxPOST_trace_eq (body : BuildSponsoredTxRequest) (env : Env)
    (st : ChainState) (sp : GaslessTx → Except String SponsorResponse) :
    (buildSponsoredTxPOST body env st sp).sponsorRequest =
      (if isFalsyStr body.sender then none
       else if isFalsyStr env.packageId then none
       else some { txKindBytes := encodeInstr (mathInstr (env.packageId.getD "") body.num1 body.num2),
                   sender := body.sender.getD "", gasBudget := none }) ∧
    (buildSponsoredTxPOST body env st sp).builtInstr =
      (if isFalsyStr body.sender then none
       else if isFalsyStr env.packageId then none
       else some (mathInstr (env.packageId.getD "") body.num1 body.num2)) := by
  unfold buildSponsoredTxPOST
  by_cases h1 : isFalsyStr body.sender = true
  · simp [h1, buildError]
  · by_cases h2 : isFalsyStr env.packageId = true
    · simp [h1, h2, buildError]
    · simp only [h1, h2, Bool.false_eq_true, if_false]
      refine ⟨?_, ?_⟩ <;> (split <;> rfl)

/-! ## Claim theorems -/

/-- C2: in all three submission paths — the backend execute route,
`handleFrontendSubmit`, and `handleTransfer` — the signature array passed to
`executeTransactionBlock` is exactly `[senderSignature, sponsorSignature]`
(user authorization first, sponsor authorization second), never reordered. -/
theorem C2_signature_order_user_then_sponsor :
    (∀ (body : ExecuteSponsoredTxRequest)
        (ledger : List Nat → List String → Except String String),
      isFalsyBytes body.txBytes = false → isFalsyStr body.sponsorSignature = false →
      isFalsyStr body.senderSignature = false →
      (executeSponsoredTxPOST body ledger).ledgerCall =
        some { transactionBlock := body.txBytes.getD [],
               signature := [body.senderSignature.getD "", body.sponsorSignature.getD ""] })
    ∧ (∀ (resp : BuildSponsoredTxResponse) (sign : List Nat → String),
      (handleFrontendSubmit (.ok resp) sign).ledgerCall =
        some { transactionBlock := resp.txBytes,
               signature := [sign resp.txBytes, resp.sponsorSignature] })
    ∧ (∀ (recipient : String) (amt : Nat) (resp : BuildSponsoredTxResponse)
        (sign : List Nat → String),
      recipient ≠ "" →
      (handleTransfer recipient (some amt) (.ok resp) sign).ledgerCall =
        some { transactionBlock := resp.txBytes,
               signature := [sign resp.txBytes, resp.sponsorSignature] }) := by
  refine ⟨fun body ledger h1 h2 h3 => executeSponsoredTxPOST_ledgerCall body ledger h1 h2 h3,
          fun resp sign => rfl,
          fun recipient amt resp sign h => ?_⟩
  unfold handleTransfer
  simp [h]

/-- Witness for C2 at a concrete request, build response, wallet and ledger. -/
theorem C2_signature_order_user_then_sponsor_witness :
    (executeSponsoredTxPOST
        { txBytes := some [7], sponsorSignature := some "sp", senderSignature := some "sn" }
        (fun _ _ => .ok "d")).ledgerCall =
      some { transactionBlock := [7], signature := ["sn", "sp"] }
    ∧ (handleFrontendSubmit
        (.ok { txBytes := [7], sponsorSignature := "sp", digest := "dg" })
        (fun _ => "sn")).ledgerCall =
      some { transactionBlock := [7], signature := ["sn", "sp"] }
    ∧ (handleTransfer "0xbob" (some 5)
        (.ok { txBytes := [7], sponsorSignature := "sp", digest := "dg" })
        (fun _ => "sn")).ledgerCall =
      some { transactionBlock := [7], signature := ["sn", "sp"] } := by
  refine ⟨C2_signature_order_user_then_sponsor.1 _ _ (by decide) (by decide) (by decide),
          C2_signature_order_user_then_sponsor.2.1 _ _,
          C2_signature_order_user_then_sponsor.2.2 "0xbob" 5 _ _ (by decide)⟩

/-- C10: the execute route returns HTTP 400 with an error and issues no
ledger call whenever any of `txBytes`, `sponsorSignature`, `senderSignature`
is absent or empty, and issues the ledger call exactly when all three are
present and non-empty. -/
theorem C10_execute_requires_all_three_fields (body : ExecuteSponsoredTxRequest)
    (ledger : List Nat → List String → Except String String) :
    ((isFalsyBytes body.txBytes || isFalsyStr body.sponsorSignature
        || isFalsyStr body.senderSignature) = true →
      (executeSponsoredTxPOST body ledger).status = 400 ∧
      (executeSponsoredTxPOST body ledger).error =
        some "Transaction bytes, sponsor signature, and sender signature are all required" ∧
      (executeSponsoredTxPOST body ledger).ledgerCall = none)
    ∧ ((isFalsyBytes body.txBytes || isFalsyStr body.sponsorSignature
        || isFalsyStr body.senderSignature) = false →
      (executeSponsoredTxPOST body ledger).ledgerCall =
        some { transactionBlock := body.txBytes.getD [],
               signature := [body.senderSignature.getD "", body.sponsorSignature.getD ""] }) := by
  constructor
  · intro h
    unfold executeSponsoredTxPOST
    rw [h]
    simp
  · intro h
    simp only [Bool.or_eq_false_iff] at h
    exact executeSponsoredTxPOST_ledgerCall body ledger h.1.1 h.1.2 h.2

/-- Witness for C10: a request with an empty sender signature is rejected
with 400 and no ledger call; a fully populated request produces the call. -/
theorem C10_execute_requires_all_three_fields_witness :
    ((executeSponsoredTxPOST
        { txBytes := some [7], sponsorSignature := some "sp", senderSignature := some "" }
        (fun _ _ => .ok "d")).status = 400 ∧
      (executeSponsoredTxPOST
        { txBytes := some [7], sponsorSignature := some "sp", senderSignature := some "" }
        (fun _ _ => .ok "d")).error =
        some "Transaction bytes, sponsor signature, and sender signature are all required" ∧
      (executeSponsoredTxPOST
        { txBytes := some [7], sponsorSignature := some "sp", senderSignature := some "" }
        (fun _ _ => .ok "d")).ledgerCall = none)
    ∧ (executeSponsoredTxPOST
        { txBytes := some [7], sponsorSignature := some "sp", senderSignature := some "sn" }
        (fun _ _ => .ok "d")).ledgerCall =
      some { transactionBlock := [7], signature := ["sn", "sp"] } := by
  exact ⟨(C10_execute_requires_all_three_fields _ _).1 (by decide),
         (C10_execute_requires_all_three_fields _ _).2 (by decide)⟩

/-- C4 counterexample: the execute route performs no role or digest
validation. Here the sender and sponsor signature fields carry the SAME
string, so the pair cannot be a user-role authorization and a sponsor-role
authorization respectively; yet the route submits to the ledger with status
200 and no `AuthorizationMismatch` error. -/
theorem C4_counterexample_no_authorization_validation :
    (executeSponsoredTxPOST
        { txBytes := some [1, 2, 3], sponsorSignature := some "sameSig",
          senderSignature := some "sameSig" }
        (fun _ _ => .ok "digest")).ledgerCall =
      some { transactionBlock := [1, 2, 3], signature := ["sameSig", "sameSig"] }
    ∧ (executeSponsoredTxPOST
        { txBytes := some [1, 2, 3], sponsorSignature := some "sameSig",
          senderSignature := some "sameSig" }
        (fun _ _ => .ok "digest")).status = 200
    ∧ (executeSponsoredTxPOST
        { txBytes := some [1, 2, 3], sponsorSignature := some "sameSig",
          senderSignature := some "sameSig" }
        (fun _ _ => .ok "digest")).error = none := by
  exact ⟨rfl, rfl, rfl⟩

/-- C4 amended: before submitting, the execute route checks only that
`txBytes`, `sponsorSignature` and `senderSignature` are present and
non-empty; it performs no role or payload-digest validation, passes any two
supplied signature strings to the ledger as `[senderSignature,
sponsorSignature]`, and its only possible post-validation error is the
catch-all ledger failure — no `AuthorizationMismatch` exists. -/
theorem C4_execute_submits_without_authorization_validation
    (body : ExecuteSponsoredTxRequest)
    (ledger : List Nat → List String → Except String String)
    (h1 : isFalsyBytes body.txBytes = false) (h2 : isFalsyStr body.sponsorSignature = false)
    (h3 : isFalsyStr body.senderSignature = false) :
    (executeSponsoredTxPOST body ledger).ledgerCall =
      some { transactionBlock := body.txBytes.getD [],
             signature := [body.senderSignature.getD "", body.sponsorSignature.getD ""] }
    ∧ ((executeSponsoredTxPOST body ledger).error = none ∨
       (executeSponsoredTxPOST body ledger).error = some "Failed to execute transaction") := by
  refine ⟨executeSponsoredTxPOST_ledgerCall body ledger h1 h2 h3, ?_⟩
  unfold executeSponsoredTxPOST
  rw [h1, h2, h3]
  simp only [Bool.or_self, Bool.false_or, if_false]
  rcases ledger (body.txBytes.getD []) [body.senderSignature.getD "", body.sponsorSignature.getD ""]
    with e | d <;> simp

/-- Witness for the amended C4: stale-looking, identical signature strings
are submitted untouched. -/
theorem C4_execute_submits_without_authorization_validation_witness :
    (executeSponsoredTxPOST
        { txBytes := some [9], sponsorSignature := some "staleSig",
          senderSignature := some "staleSig" }
        (fun _ _ => .ok "d")).ledgerCall =
      some { transactionBlock := [9], signature := ["staleSig", "staleSig"] }
    ∧ ((executeSponsoredTxPOST
        { txBytes := some [9], sponsorSignature := some "staleSig",
          senderSignature := some "staleSig" }
        (fun _ _ => .ok "d")).error = none ∨
       (executeSponsoredTxPOST
        { txBytes := some [9], sponsorSignature := some "staleSig",
          senderSignature := some "staleSig" }
        (fun _ _ => .ok "d")).error = some "Failed to execute transaction") := by
  exact C4_execute_submits_without_authorization_validation _ _
    (by decide) (by decide) (by decide)

/-- C7: in each of the three flows, the wallet's `signTransaction` is called
exactly once, on exactly the `txBytes` the sponsorship step returned, and the
bytes submitted to the ledger (directly, or through the execute route for the
backend-submit flow) are those same bytes — never re-serialized or mutated. -/
theorem C7_signer_and_ledger_get_exact_sponsored_bytes :
    (∀ (resp : BuildSponsoredTxResponse) (sign : List Nat → String),
      (handleFrontendSubmit (.ok resp) sign).signedPayloads = [resp.txBytes] ∧
      (handleFrontendSubmit (.ok resp) sign).ledgerCall =
        some { transactionBlock := resp.txBytes,
               signature := [sign resp.txBytes, resp.sponsorSignature] })
    ∧ (∀ (resp : BuildSponsoredTxResponse) (sign : List Nat → String)
        (ledger : List Nat → List String → Except String String),
      (handleBackendSubmit (.ok resp) sign).signedPayloads = [resp.txBytes] ∧
      (handleBackendSubmit (.ok resp) sign).executeRequest =
        some { txBytes := some resp.txBytes, sponsorSignature := some resp.sponsorSignature,
               senderSignature := some (sign resp.txBytes) } ∧
      (resp.txBytes ≠ [] → resp.sponsorSignature ≠ "" → sign resp.txBytes ≠ "" →
        (executeSponsoredTxPOST
            { txBytes := some resp.txBytes, sponsorSignature := some resp.sponsorSignature,
              senderSignature := some (sign resp.txBytes) } ledger).ledgerCall =
          some { transactionBlock := resp.txBytes,
                 signature := [sign resp.txBytes, resp.sponsorSignature] }))
    ∧ (∀ (recipient : String) (amt : Nat) (resp : BuildSponsoredTxResponse)
        (sign : List Nat → String),
      recipient ≠ "" →
      (handleTransfer recipient (some amt) (.ok resp) sign).signedPayloads = [resp.txBytes] ∧
      (handleTransfer recipient (some amt) (.ok resp) sign).ledgerCall =
        some { transactionBlock := resp.txBytes,
               signature := [sign resp.txBytes, resp.sponsorSignature] }) := by
  refine ⟨fun resp sign => ⟨rfl, rfl⟩,
          fun resp sign ledger => ⟨rfl, rfl, fun hb hsp hsn => ?_⟩,
          fun recipient amt resp sign h => ?_⟩
  · exact executeSponsoredTxPOST_ledgerCall _ _
      (isFalsyBytes_some_false hb) (isFalsyStr_some_false hsp) (isFalsyStr_some_false hsn)
  · unfold handleTransfer
    simp [h]

/-- Witness for C7 at a concrete build response, wallet and ledger. -/
theorem C7_signer_and_ledger_get_exact_sponsored_bytes_witness :
    ((handleFrontendSubmit
        (.ok { txBytes := [4, 2], sponsorSignature := "sp", digest := "dg" })
        (fun _ => "sn")).signedPayloads = [[4, 2]]
    ∧ (handleFrontendSubmit
        (.ok { txBytes := [4, 2], sponsorSignature := "sp", digest := "dg" })
        (fun _ => "sn")).ledgerCall =
      some { transactionBlock := [4, 2], signature := ["sn", "sp"] })
    ∧ (handleBackendSubmit
        (.ok { txBytes := [4, 2], sponsorSignature := "sp", digest := "dg" })
        (fun _ => "sn")).signedPayloads = [[4, 2]]
    ∧ (executeSponsoredTxPOST
        { txBytes := some [4, 2], sponsorSignature := some "sp",
          senderSignature := some "sn" }
        (fun _ _ => .ok "d")).ledgerCall =
      some { transactionBlock := [4, 2], signature := ["sn", "sp"] } := by
  have h := C7_signer_and_ledger_get_exact_sponsored_bytes
  exact ⟨⟨(h.1 { txBytes := [4, 2], sponsorSignature := "sp", digest := "dg" }
             (fun _ => "sn")).1,
          (h.1 { txBytes := [4, 2], sponsorSignature := "sp", digest := "dg" }
             (fun _ => "sn")).2⟩,
         (h.2.1 { txBytes := [4, 2], sponsorSignature := "sp", digest := "dg" }
             (fun _ => "sn") (fun _ _ => .ok "d")).1,
         (h.2.1 { txBytes := [4, 2], sponsorSignature := "sp", digest := "dg" }
             (fun _ => "sn") (fun _ _ => .ok "d")).2.2
           (by decide) (by decide) (by decide)⟩

/-- C5: when the sender's owned-coin query returns an empty list, the
transfer build route fails with HTTP 400 and the no-eligible-coin error, and
no sponsorship request is made (`sponsorRequest = none` records that
`sponsorTransaction` was never called). -/
theorem C5_no_coins_rejected_before_sponsor (body : BuildTransferTxRequest)
    (st : ChainState) (sp : GaslessTx → Except String SponsorResponse) (s : String)
    (hs : body.sender = some s) (hs' : s ≠ "")
    (hr : isFalsyStr body.recipient = false) (ha : amountInvalid body.amount = false)
    (hcoins : st.coins s = []) :
    (buildTransferTxPOST body st sp).status = 400 ∧
    (buildTransferTxPOST body st sp).error = some "Sender has no SUI coins to transfer" ∧
    (buildTransferTxPOST body st sp).sponsorRequest = none := by
  unfold buildTransferTxPOST
  rw [hs, isFalsyStr_some_false hs', hr, ha]
  simp only [Bool.false_eq_true, if_false, Option.getD_some]
  rw [hcoins]
  exact ⟨rfl, rfl, rfl⟩

/-- Witness for C5: a sender owning no SUI coins gets the 400 error and the
sponsor is never contacted. -/
theorem C5_no_coins_rejected_before_sponsor_witness :
    (buildTransferTxPOST
        { sender := some "0xalice", recipient := some "0xbob", amount := some 100 }
        { coins := fun _ => [] }
        (fun tx => .ok { tx := { txKindBytes := tx.txKindBytes, sender := tx.sender,
                                 gasBudget := 1000, gasPayment := "0xgas" },
                         signature := "spSig", txDigest := "dig" })).status = 400 ∧
    (buildTransferTxPOST
        { sender := some "0xalice", recipient := some "0xbob", amount := some 100 }
        { coins := fun _ => [] }
        (fun tx => .ok { tx := { txKindBytes := tx.txKindBytes, sender := tx.sender,
                                 gasBudget := 1000, gasPayment := "0xgas" },
                         signature := "spSig", txDigest := "dig" })).error =
      some "Sender has no SUI coins to transfer" ∧
    (buildTransferTxPOST
        { sender := some "0xalice", recipient := some "0xbob", amount := some 100 }
        { coins := fun _ => [] }
        (fun tx => .ok { tx := { txKindBytes := tx.txKindBytes, sender := tx.sender,
                                 gasBudget := 1000, gasPayment := "0xgas" },
                         signature := "spSig", txDigest := "dig" })).sponsorRequest = none := by
  exact C5_no_coins_rejected_before_sponsor _ _ _ "0xalice" rfl
    (by decide) (by decide) (by decide) rfl

/-- C6 counterexample: the sender's only coin holds 5 MIST but the requested
amount is 100; the route does NOT fail with a no-eligible-resource error — it
builds a split of 100 from that coin, sends the sponsorship request, and
returns 200. -/
theorem C6_counterexample_insufficient_balance_not_rejected :
    (buildTransferTxPOST
        { sender := some "0xalice", recipient := some "0xbob", amount := some 100 }
        { coins := fun o => if o == "0xalice" then [{ coinObjectId := "0xcoin1", balance := 5 }] else [] }
        (fun tx => .ok { tx := { txKindBytes := tx.txKindBytes, sender := tx.sender,
                                 gasBudget := 1000, gasPayment := "0xgas" },
                         signature := "spSig", txDigest := "dig" })).status = 200 ∧
    (buildTransferTxPOST
        { sender := some "0xalice", recipient := some "0xbob", amount := some 100 }
        { coins := fun o => if o == "0xalice" then [{ coinObjectId := "0xcoin1", balance := 5 }] else [] }
        (fun tx => .ok { tx := { txKindBytes := tx.txKindBytes, sender := tx.sender,
                                 gasBudget := 1000, gasPayment := "0xgas" },
                         signature := "spSig", txDigest := "dig" })).error = none ∧
    (buildTransferTxPOST
        { sender := some "0xalice", recipient := some "0xbob", amount := some 100 }
        { coins := fun o => if o == "0xalice" then [{ coinObjectId := "0xcoin1", balance := 5 }] else [] }
        (fun tx => .ok { tx := { txKindBytes := tx.txKindBytes, sender := tx.sender,
                                 gasBudget := 1000, gasPayment := "0xgas" },
                         signature := "spSig", txDigest := "dig" })).builtInstr =
      some (.transferSui "0xcoin1" 100 "0xbob") ∧
    (5 : Nat) < 100 := by
  exact ⟨rfl, rfl, rfl, by decide⟩

/-- C6 amended: the transfer build route checks only that the sender owns at
least one SUI coin; it selects the FIRST coin without comparing its balance
to the requested amount, and proceeds to build and sponsor the split even
when that coin's balance is strictly below the amount. -/
theorem C6_insufficient_balance_still_sponsored (body : BuildTransferTxRequest)
    (st : ChainState) (sp : GaslessTx → Except String SponsorResponse)
    (s rcpt : String) (a : Int) (c : Coin) (rest : List Coin) (r : SponsorResponse)
    (hs : body.sender = some s) (hs' : s ≠ "")
    (hr : body.recipient = some rcpt) (hr' : rcpt ≠ "")
    (ha : body.amount = some a) (ha' : 0 < a)
    (hcoins : st.coins s = c :: rest)
    (_hbal : (c.balance : Int) < a)
    (hsp : ∀ tx, sp tx = Except.ok r) :
    (buildTransferTxPOST body st sp).status = 200 ∧
    (buildTransferTxPOST body st sp).builtInstr =
      some (.transferSui c.coinObjectId a.toNat rcpt) ∧
    (buildTransferTxPOST body st sp).sponsorRequest =
      some { txKindBytes := encodeInstr (.transferSui c.coinObjectId a.toNat rcpt),
             sender := s, gasBudget := none } ∧
    (buildTransferTxPOST body st sp).txBytes = some (feeBoundTxBytes r.tx) := by
  have hamt : amountInvalid body.amount = false := by
    rw [ha]
    simp [amountInvalid, not_le.mpr ha']
  unfold buildTransferTxPOST
  rw [hs, hr, isFalsyStr_some_false hs', isFalsyStr_some_false hr', hamt]
  simp only [Bool.false_eq_true, if_false, Option.getD_some]
  rw [hcoins]
  simp only [ha, Option.getD_some]
  rw [hsp]
  exact ⟨rfl, rfl, rfl, rfl⟩

/-- Witness for the amended C6 at the concrete insufficient-balance input. -/
theorem C6_insufficient_balance_still_sponsored_witness :
    (buildTransferTxPOST
        { sender := some "0xcarol", recipient := some "0xdan", amount := some 100 }
        { coins := fun _ => [{ coinObjectId := "0xcoin9", balance := 5 }] }
        (fun _ => .ok { tx := { txKindBytes := [], sender := "0xcarol",
                                gasBudget := 1000, gasPayment := "0xgas" },
                        signature := "spSig", txDigest := "dig" })).status = 200 ∧
    (buildTransferTxPOST
        { sender := some "0xcarol", recipient := some "0xdan", amount := some 100 }
        { coins := fun _ => [{ coinObjectId := "0xcoin9", balance := 5 }] }
        (fun _ => .ok { tx := { txKindBytes := [], sender := "0xcarol",
                                gasBudget := 1000, gasPayment := "0xgas" },
                        signature := "spSig", txDigest := "dig" })).builtInstr =
      some (.transferSui "0xcoin9" (Int.toNat 100) "0xdan") ∧
    (buildTransferTxPOST
        { sender := some "0xcarol", recipient := some "0xdan", amount := some 100 }
        { coins := fun _ => [{ coinObjectId := "0xcoin9", balance := 5 }] }
        (fun _ => .ok { tx := { txKindBytes := [], sender := "0xcarol",
                                gasBudget := 1000, gasPayment := "0xgas" },
                        signature := "spSig", txDigest := "dig" })).sponsorRequest =
      some { txKindBytes := encodeInstr (.transferSui "0xcoin9" (Int.toNat 100) "0xdan"),
             sender := "0xcarol", gasBudget := none } ∧
    (buildTransferTxPOST
        { sender := some "0xcarol", recipient := some "0xdan", amount := some 100 }
        { coins := fun _ => [{ coinObjectId := "0xcoin9", balance := 5 }] }
        (fun _ => .ok { tx := { txKindBytes := [], sender := "0xcarol",
                                gasBudget := 1000, gasPayment := "0xgas" },
                        signature := "spSig", txDigest := "dig" })).txBytes =
      some (feeBoundTxBytes { txKindBytes := [], sender := "0xcarol",
                              gasBudget := 1000, gasPayment := "0xgas" }) := by
  exact C6_insufficient_balance_still_sponsored _ _ _ "0xcarol" "0xdan" 100
    { coinObjectId := "0xcoin9", balance := 5 } [] _
    rfl (by decide) rfl (by decide) rfl (by decide) rfl (by decide) (fun tx => rfl)

/-- C8: payload building is deterministic — for a fixed request body and
package id, the gasless transaction sent for sponsorship (and hence the
serialized unbound payload) is identical across any two invocations,
whatever the chain state or sponsor behaviour at each invocation; the
`math` move calls use only pure `u64` arguments, so nothing external enters
the encoding. -/
theorem C8_build_payload_deterministic (body : BuildSponsoredTxRequest) (env : Env)
    (st1 st2 : ChainState) (sp1 sp2 : GaslessTx → Except String SponsorResponse) :
    (buildSponsoredTxPOST body env st1 sp1).sponsorRequest =
      (buildSponsoredTxPOST body env st2 sp2).sponsorRequest ∧
    Option.map unboundPayloadBytes (buildSponsoredTxPOST body env st1 sp1).sponsorRequest =
      Option.map unboundPayloadBytes (buildSponsoredTxPOST body env st2 sp2).sponsorRequest ∧
    (buildSponsoredTxPOST body env st1 sp1).builtInstr =
      (buildSponsoredTxPOST body env st2 sp2).builtInstr := by
  obtain ⟨a1, b1⟩ := buildSponsoredTxPOST_trace_eq body env st1 sp1
  obtain ⟨a2, b2⟩ := buildSponsoredTxPOST_trace_eq body env st2 sp2
  exact ⟨by rw [a1, a2], by rw [a1, a2], by rw [b1, b2]⟩

/-- C9: the build route constructs the `math::add(num1, num2)` call exactly
when both `num1` and `num2` are present in the request body; when either is
absent it silently builds the zero-argument `math::hello_world` call instead
and still responds with status 200. -/
theorem C9_add_iff_both_numbers_present (body : BuildSponsoredTxRequest) (env : Env)
    (st : ChainState) (sp : GaslessTx → Except String SponsorResponse)
    (s pkg : String) (r : SponsorResponse)
    (hs : body.sender = some s) (hs' : s ≠ "")
    (hp : env.packageId = some pkg) (hp' : pkg ≠ "")
    (hsp : ∀ tx, sp tx = Except.ok r) :
    (∀ a b, body.num1 = some a → body.num2 = some b →
      (buildSponsoredTxPOST body env st sp).builtInstr =
        some (TxInstr.moveCallAdd pkg a b)) ∧
    ((body.num1 = none ∨ body.num2 = none) →
      (buildSponsoredTxPOST body env st sp).builtInstr =
        some (TxInstr.moveCallHelloWorld pkg) ∧
      (buildSponsoredTxPOST body env st sp).status = 200) ∧
    (∀ a b, (buildSponsoredTxPOST body env st sp).builtInstr =
        some (TxInstr.moveCallAdd pkg a b) →
      body.num1 = some a ∧ body.num2 = some b) := by
  rw [buildSponsoredTxPOST_ok_eq body env st sp s pkg r hs hs' hp hp' hsp]
  refine ⟨fun a b h1 h2 => by simp [h1, h2, mathInstr], fun h => ?_, fun a b h => ?_⟩
  · rcases hn1 : body.num1 with _ | a <;> rcases hn2 : body.num2 with _ | b <;>
      simp_all [mathInstr]
  · rcases hn1 : body.num1 with _ | a' <;> rcases hn2 : body.num2 with _ | b' <;>
      simp_all [mathInstr]

/-- Witness for C9: a request carrying `num1 = 3` but no `num2` builds the
`hello_world` call and still succeeds with 200. -/
theorem C9_add_iff_both_numbers_present_witness :
    (buildSponsoredTxPOST
        { sender := some "0xalice", num1 := some 3, num2 := none, transactionData := none }
        { packageId := some "0xpkg" } { coins := fun _ => [] }
        (fun _ => .ok { tx := { txKindBytes := [], sender := "0xalice",
                                gasBudget := 1000, gasPayment := "0xgas" },
                        signature := "spSig", txDigest := "dig" })).builtInstr =
      some (TxInstr.moveCallHelloWorld "0xpkg") ∧
    (buildSponsoredTxPOST
        { sender := some "0xalice", num1 := some 3, num2 := none, transactionData := none }
        { packageId := some "0xpkg" } { coins := fun _ => [] }
        (fun _ => .ok { tx := { txKindBytes := [], sender := "0xalice",
                                gasBudget := 1000, gasPayment := "0xgas" },
                        signature := "spSig", txDigest := "dig" })).status = 200 := by
  exact (C9_add_iff_both_numbers_present _ _ _ _ "0xalice" "0xpkg" _
      rfl (by decide) rfl (by decide) (fun tx => rfl)).2.1 (Or.inr rfl)

/-- C1 counterexample: the sponsor returns a fee-bound payload whose sender
(`0xmallory`) differs from the unbound payload's sender (`0xalice`), so the
non-fee portion differs byte-for-byte; the route nevertheless returns the
tampered payload downstream with status 200 and no error — there is no
`SponsorTamperedPayload` check. -/
theorem C1_counterexample_tampered_response_passed_downstream :
    (buildSponsoredTxPOST
        { sender := some "0xalice", num1 := some 1, num2 := some 2, transactionData := none }
        { packageId := some "0xpkg" } { coins := fun _ => [] }
        (fun tx => .ok { tx := { txKindBytes := tx.txKindBytes, sender := "0xmallory",
                                 gasBudget := 1000, gasPayment := "0xgas" },
                         signature := "sig", txDigest := "dig" })).status = 200 ∧
    (buildSponsoredTxPOST
        { sender := some "0xalice", num1 := some 1, num2 := some 2, transactionData := none }
        { packageId := some "0xpkg" } { coins := fun _ => [] }
        (fun tx => .ok { tx := { txKindBytes := tx.txKindBytes, sender := "0xmallory",
                                 gasBudget := 1000, gasPayment := "0xgas" },
                         signature := "sig", txDigest := "dig" })).error = none ∧
    (buildSponsoredTxPOST
        { sender := some "0xalice", num1 := some 1, num2 := some 2, transactionData := none }
        { packageId := some "0xpkg" } { coins := fun _ => [] }
        (fun tx => .ok { tx := { txKindBytes := tx.txKindBytes, sender := "0xmallory",
                                 gasBudget := 1000, gasPayment := "0xgas" },
                         signature := "sig", txDigest := "dig" })).txBytes =
      some (feeBoundTxBytes { txKindBytes := encodeInstr (.moveCallAdd "0xpkg" 1 2),
                              sender := "0xmallory", gasBudget := 1000, gasPayment := "0xgas" }) ∧
    (buildSponsoredTxPOST
        { sender := some "0xalice", num1 := some 1, num2 := some 2, transactionData := none }
        { packageId := some "0xpkg" } { coins := fun _ => [] }
        (fun tx => .ok { tx := { txKindBytes := tx.txKindBytes, sender := "0xmallory",
                                 gasBudget := 1000, gasPayment := "0xgas" },
                         signature := "sig", txDigest := "dig" })).sponsorRequest =
      some { txKindBytes := encodeInstr (.moveCallAdd "0xpkg" 1 2),
             sender := "0xalice", gasBudget := none } ∧
    strBytes "0xmallory" ≠ strBytes "0xalice" := by
  exact ⟨rfl, rfl, rfl, rfl, by decide⟩

/-- C1 amended: the build route performs no matching check on the sponsor's
response — whatever fee-bound payload the sponsor returns, related or not to
the payload that was sent, is returned downstream with status 200, its
signature and digest attached, and no error; `SponsorTamperedPayload` does
not exist in the code. -/
theorem C1_sponsor_response_returned_unchecked (body : BuildSponsoredTxRequest)
    (env : Env) (st : ChainState) (sp : GaslessTx → Except String SponsorResponse)
    (s pkg : String) (r : SponsorResponse)
    (hs : body.sender = some s) (hs' : s ≠ "")
    (hp : env.packageId = some pkg) (hp' : pkg ≠ "")
    (hsp : ∀ tx, sp tx = Except.ok r) :
    (buildSponsoredTxPOST body env st sp).status = 200 ∧
    (buildSponsoredTxPOST body env st sp).error = none ∧
    (buildSponsoredTxPOST body env st sp).txBytes = some (feeBoundTxBytes r.tx) ∧
    (buildSponsoredTxPOST body env st sp).sponsorSignature = some r.signature := by
  rw [buildSponsoredTxPOST_ok_eq body env st sp s pkg r hs hs' hp hp' hsp]
  exact ⟨rfl, rfl, rfl, rfl⟩

/-- Witness for the amended C1: a sponsor response naming a different sender
is returned downstream. -/
theorem C1_sponsor_response_returned_unchecked_witness :
    (buildSponsoredTxPOST
        { sender := some "0xbob", num1 := some 4, num2 := some 5, transactionData := none }
        { packageId := some "0xpkg" } { coins := fun _ => [] }
        (fun _ => .ok { tx := { txKindBytes := [9, 9], sender := "0xeve",
                                gasBudget := 7, gasPayment := "0xg" },
                        signature := "sg", txDigest := "dg" })).status = 200 ∧
    (buildSponsoredTxPOST
        { sender := some "0xbob", num1 := some 4, num2 := some 5, transactionData := none }
        { packageId := some "0xpkg" } { coins := fun _ => [] }
        (fun _ => .ok { tx := { txKindBytes := [9, 9], sender := "0xeve",
                                gasBudget := 7, gasPayment := "0xg" },
                        signature := "sg", txDigest := "dg" })).error = none ∧
    (buildSponsoredTxPOST
        { sender := some "0xbob", num1 := some 4, num2 := some 5, transactionData := none }
        { packageId := some "0xpkg" } { coins := fun _ => [] }
        (fun _ => .ok { tx := { txKindBytes := [9, 9], sender := "0xeve",
                                gasBudget := 7, gasPayment := "0xg" },
                        signature := "sg", txDigest := "dg" })).txBytes =
      some (feeBoundTxBytes { txKindBytes := [9, 9], sender := "0xeve",
                              gasBudget := 7, gasPayment := "0xg" }) ∧
    (buildSponsoredTxPOST
        { sender := some "0xbob", num1 := some 4, num2 := some 5, transactionData := none }
        { packageId := some "0xpkg" } { coins := fun _ => [] }
        (fun _ => .ok { tx := { txKindBytes := [9, 9], sender := "0xeve",
                                gasBudget := 7, gasPayment := "0xg" },
                        signature := "sg", txDigest := "dg" })).sponsorSignature = some "sg" := by
  exact C1_sponsor_response_returned_unchecked _ _ _ _ "0xbob" "0xpkg" _
    rfl (by decide) rfl (by decide) (fun tx => rfl)

/-- C3 counterexample: the caller expresses a fee ceiling of 10 in the only
generic slot the request type offers (`transactionData`); the route ignores
it — the sponsorship request is sent with `gasBudget = none` (no ceiling
embedded), and the sponsor's returned binding with gas budget 50 is accepted
and returned downstream with status 200 and no error; there is no
`FeeCeilingExceeded` rejection. -/
theorem C3_counterexample_fee_ceiling_ignored :
    (buildSponsoredTxPOST
        { sender := some "0xalice", num1 := some 1, num2 := some 2,
          transactionData := some "feeCeiling=10" }
        { packageId := some "0xpkg" } { coins := fun _ => [] }
        (fun tx => .ok { tx := { txKindBytes := tx.txKindBytes, sender := tx.sender,
                                 gasBudget := 50, gasPayment := "0xgas" },
                         signature := "sig", txDigest := "dig" })).sponsorRequest =
      some { txKindBytes := encodeInstr (.moveCallAdd "0xpkg" 1 2),
             sender := "0xalice", gasBudget := none } ∧
    (buildSponsoredTxPOST
        { sender := some "0xalice", num1 := some 1, num2 := some 2,
          transactionData := some "feeCeiling=10" }
        { packageId := some "0xpkg" } { coins := fun _ => [] }
        (fun tx => .ok { tx := { txKindBytes := tx.txKindBytes, sender := tx.sender,
                                 gasBudget := 50, gasPayment := "0xgas" },
                         signature := "sig", txDigest := "dig" })).status = 200 ∧
    (buildSponsoredTxPOST
        { sender := some "0xalice", num1 := some 1, num2 := some 2,
          transactionData := some "feeCeiling=10" }
        { packageId := some "0xpkg" } { coins := fun _ => [] }
        (fun tx => .ok { tx := { txKindBytes := tx.txKindBytes, sender := tx.sender,
                                 gasBudget := 50, gasPayment := "0xgas" },
                         signature := "sig", txDigest := "dig" })).error = none ∧
    (buildSponsoredTxPOST
        { sender := some "0xalice", num1 := some 1, num2 := some 2,
          transactionData := some "feeCeiling=10" }
        { packageId := some "0xpkg" } { coins := fun _ => [] }
        (fun tx => .ok { tx := { txKindBytes := tx.txKindBytes, sender := tx.sender,
                                 gasBudget := 50, gasPayment := "0xgas" },
                         signature := "sig", txDigest := "dig" })).txBytes =
      some (feeBoundTxBytes { txKindBytes := encodeInstr (.moveCallAdd "0xpkg" 1 2),
                              sender := "0xalice", gasBudget := 50, gasPayment := "0xgas" }) ∧
    (10 : Nat) < 50 := by
  exact ⟨rfl, rfl, rfl, rfl, by decide⟩

/-- C3 amended: the build route has no fee-ceiling handling — the request
body offers no ceiling parameter the route reads, the sponsorship request is
always sent with no gas budget (the sponsor auto-budgets), and every fee
binding the sponsor returns is accepted and returned downstream with status
200; `FeeCeilingExceeded` does not exist in the code. -/
theorem C3_no_fee_ceiling_handling (body : BuildSponsoredTxRequest)
    (env : Env) (st : ChainState) (sp : GaslessTx → Except String SponsorResponse)
    (s pkg : String) (r : SponsorResponse)
    (hs : body.sender = some s) (hs' : s ≠ "")
    (hp : env.packageId = some pkg) (hp' : pkg ≠ "")
    (hsp : ∀ tx, sp tx = Except.ok r) :
    Option.map GaslessTx.gasBudget (buildSponsoredTxPOST body env st sp).sponsorRequest =
      some none ∧
    (buildSponsoredTxPOST body env st sp).status = 200 ∧
    (buildSponsoredTxPOST body env st sp).txBytes = some (feeBoundTxBytes r.tx) := by
  rw [buildSponsoredTxPOST_ok_eq body env st sp s pkg r hs hs' hp hp' hsp]
  exact ⟨rfl, rfl, rfl⟩

/-- Witness for the amended C3: the sponsorship request carries no budget
and the response's binding is returned as-is. -/
theorem C3_no_fee_ceiling_handling_witness :
    Option.map GaslessTx.gasBudget
      (buildSponsoredTxPOST
        { sender := some "0xdave", num1 := some 2, num2 := some 2,
          transactionData := some "feeCeiling=10" }
        { packageId := some "0xpkg" } { coins := fun _ => [] }
        (fun _ => .ok { tx := { txKindBytes := [3], sender := "0xdave",
                                gasBudget := 50, gasPayment := "0xg" },
                        signature := "sg", txDigest := "dg" })).sponsorRequest = some none ∧
    (buildSponsoredTxPOST
        { sender := some "0xdave", num1 := some 2, num2 := some 2,
          transactionData := some "feeCeiling=10" }
        { packageId := some "0xpkg" } { coins := fun _ => [] }
        (fun _ => .ok { tx := { txKindBytes := [3], sender := "0xdave",
                                gasBudget := 50, gasPayment := "0xg" },
                        signature := "sg", txDigest := "dg" })).status = 200 ∧
    (buildSponsoredTxPOST
        { sender := some "0xdave", num1 := some 2, num2 := some 2,
          transactionData := some "feeCeiling=10" }
        { packageId := some "0xpkg" } { coins := fun _ => [] }
        (fun _ => .ok { tx := { txKindBytes := [3], sender := "0xdave",
                                gasBudget := 50, gasPayment := "0xg" },
                        signature := "sg", txDigest := "dg" })).txBytes =
      some (feeBoundTxBytes { txKindBytes := [3], sender := "0xdave",
                              gasBudget := 50, gasPayment := "0xg" }) := by
  exact C3_no_fee_ceiling_handling _ _ _ _ "0xdave" "0xpkg" _
    rfl (by decide) rfl (by decide) (fun tx => rfl)

end GasStationDemo
